import Mathlib

/-!
# kmssigner: a signer backed by a remote KMS key

A shallow embedding of `signer.go`.

* Go values of type `error` are modelled by their message (`err.Error()`), a `String`;
  the nil error is `none`. `fmt.Errorf` with `%v`/`%s` verbs splices the message of its
  argument into the format string and does not wrap the argument.
* A Go byte slice is a `List UInt8`; the nil slice is the empty list.
* A function that returns `(T, error)` with a pointer or interface `T` returns a pair of
  options, so that "both nil" and "both non-nil" are expressible.
* A method with a pointer receiver returns the receiver after the call next to its results.
* The remote service, the AWS SDK client and `x509.ParsePKIXPublicKey` are collaborators
  outside the repository: they are a parameter (`Env`). The state of the outside world is
  threaded explicitly, together with the log of the requests sent to the service.
* What a request to the service is, is read off the service: the theorems about requests
  conclude on the call of `Env.Sign` or `Env.GetPublicKey` itself, and on what a service
  that records the requests it receives (`Env.recording`) has received.
-/

namespace kmssigner

/-- Go's `time.Duration`: a number of nanoseconds. -/
abbrev Duration := Int

/-- The message of a Go `error` value. -/
abbrev Error := String

/-- Go's `time.Second`. -/
def Second : Duration := 1000000000

def defaultGetPublicKeyTimeout : Duration := Second * 10

def defaultSignTimeout : Duration := Second * 10

/-- The SDK's `types.SigningAlgorithmSpec`, a string type. -/
abbrev SigningAlgorithmSpec := String

/-- Modelled from the spec: the SDK's `types.MessageType` enumeration, whose declaration is
not part of the repository; the spec names its two values "digest" and "raw message". -/
inductive MessageType where
  | RAW
  | DIGEST
  deriving DecidableEq, Repr

/-- Modelled from the spec: the SDK constant `types.MessageTypeDigest`, written
`message_type = "DIGEST"` in the spec. -/
def MessageTypeDigest : MessageType := MessageType.DIGEST

/-- The SDK's `kms.GetPublicKeyInput`, restricted to the field the code sets. -/
structure GetPublicKeyInput where
  KeyId : String
  deriving DecidableEq, Repr

/-- The SDK's `kms.GetPublicKeyOutput`, restricted to the field the code reads. -/
structure GetPublicKeyOutput where
  PublicKey : List UInt8
  deriving DecidableEq, Repr

/-- The SDK's `kms.SignInput`, restricted to the fields the code sets. -/
structure SignInput where
  KeyId : String
  Message : List UInt8
  MessageType : MessageType
  SigningAlgorithm : SigningAlgorithmSpec
  deriving DecidableEq, Repr

/-- The SDK's `kms.SignOutput`, restricted to the field the code reads. -/
structure SignOutput where
  Signature : List UInt8
  deriving DecidableEq, Repr

/-- A request sent to the remote service through client `c`, with the timeout of the
context that bounds it. -/
inductive Call (H : Type) where
  | GetPublicKey (c : H) (timeout : Duration) (input : GetPublicKeyInput)
  | Sign (c : H) (timeout : Duration) (input : SignInput)
  deriving DecidableEq, Repr

/-- The collaborators outside the repository. `C` is `aws.Config`, `H` the client handle
`*kms.Client`, `W` the state of the outside world and `K` the type of decoded public keys. -/
structure Env (C H W K : Type) where
  /-- The SDK's `kms.NewFromConfig`. -/
  NewFromConfig : C → H
  /-- The SDK's `(*kms.Client).GetPublicKey`, under a context with the given timeout. -/
  GetPublicKey : H → W → Duration → GetPublicKeyInput → Except Error GetPublicKeyOutput × W
  /-- The SDK's `(*kms.Client).Sign`, under a context with the given timeout. -/
  Sign : H → W → Duration → SignInput → Except Error SignOutput × W
  /-- Go's `x509.ParsePKIXPublicKey`. -/
  ParsePKIXPublicKey : List UInt8 → Except Error K

/-- The outside world and the requests sent to the service so far, oldest first. -/
structure Sys (H W : Type) where
  world : W
  calls : List (Call H)

/-- The struct `Signer`. The Go field `publicKey` is an interface value, `none` for nil. -/
structure Signer (H K : Type) where
  kmsClient : H
  kmsKeyId : String
  signingAlgo : SigningAlgorithmSpec
  getPublicKeyTimeout : Duration
  signTimeout : Duration
  publicKey : Option K

/-- Go's `type Option func(s *Signer)`: a function that updates the signer in place. -/
abbrev SignerOption (H K : Type) := Signer H K → Signer H K

def WithGetPublicKeyTimeout {H K : Type} (timeout : Duration) : SignerOption H K :=
  fun s => { s with getPublicKeyTimeout := timeout }

def WithSignTimeout {H K : Type} (timeout : Duration) : SignerOption H K :=
  fun s => { s with signTimeout := timeout }

/-- The result of `retrieveAndCachePublicKey`: the returned error, the receiver after the
call and the system after the call. -/
structure RetrieveResult (H W K : Type) where
  err : Option Error
  signer : Signer H K
  sys : Sys H W

def Signer.retrieveAndCachePublicKey {C H W K : Type} (env : Env C H W K) (s : Signer H K)
    (sys : Sys H W) : RetrieveResult H W K :=
  let input : GetPublicKeyInput := { KeyId := s.kmsKeyId }
  let r := env.GetPublicKey s.kmsClient sys.world s.getPublicKeyTimeout input
  let sys1 : Sys H W :=
    { world := r.2, calls := sys.calls ++ [Call.GetPublicKey s.kmsClient s.getPublicKeyTimeout input] }
  match r.1 with
  | Except.error err =>
    { err := some ("failed to get public key " ++ s.kmsKeyId ++ " from KMS: " ++ err),
      signer := s, sys := sys1 }
  | Except.ok getPublicKeyOutput =>
    match env.ParsePKIXPublicKey getPublicKeyOutput.PublicKey with
    | Except.error err =>
      { err := some
          ("failed to parse public key bytes from KMS as a PKIX public key: " ++ err),
        signer := s, sys := sys1 }
    | Except.ok publicKey =>
      { err := none, signer := { s with publicKey := some publicKey }, sys := sys1 }

/-- The result of `NewSigner`: the two returned values and the system after the call. -/
structure NewSignerResult (H W K : Type) where
  signer : Option (Signer H K)
  err : Option Error
  sys : Sys H W

def NewSigner {C H W K : Type} (env : Env C H W K) (sys : Sys H W) (cfg : C)
    (kmsKeyId : String) (signingAlgo : SigningAlgorithmSpec)
    (opts : List (SignerOption H K)) : NewSignerResult H W K :=
  let signer : Signer H K :=
    { kmsClient := env.NewFromConfig cfg,
      kmsKeyId := kmsKeyId,
      signingAlgo := signingAlgo,
      getPublicKeyTimeout := defaultGetPublicKeyTimeout,
      signTimeout := defaultSignTimeout,
      publicKey := none }
  let signer := opts.foldl (fun s opt => opt s) signer
  let r := signer.retrieveAndCachePublicKey env sys
  match r.err with
  | some err =>
    { signer := none, err := some ("failed to retrieve public key for signer: " ++ err),
      sys := r.sys }
  | none => { signer := some r.signer, err := none, sys := r.sys }

/-- The method `Public`: the returned key and the receiver after the call. -/
def Signer.Public {H K : Type} (s : Signer H K) : Option K × Signer H K :=
  (s.publicKey, s)

/-- The result of `Sign`: the two returned values, the receiver after the call and the
system after the call. -/
structure SignResult (H W K : Type) where
  signature : List UInt8
  err : Option Error
  signer : Signer H K
  sys : Sys H W

def Signer.Sign {C H W K R O : Type} (env : Env C H W K) (s : Signer H K) (sys : Sys H W)
    (_rand : R) (digest : List UInt8) (_opts : O) : SignResult H W K :=
  let input : SignInput :=
    { KeyId := s.kmsKeyId,
      Message := digest,
      MessageType := MessageTypeDigest,
      SigningAlgorithm := s.signingAlgo }
  let r := env.Sign s.kmsClient sys.world s.signTimeout input
  let sys1 : Sys H W :=
    { world := r.2, calls := sys.calls ++ [Call.Sign s.kmsClient s.signTimeout input] }
  match r.1 with
  | Except.error err =>
    { signature := [], err := some ("failed to sign digest with KMS: " ++ err),
      signer := s, sys := sys1 }
  | Except.ok signOutput =>
    { signature := signOutput.Signature, err := none, signer := s, sys := sys1 }

/-! ## Vocabulary of the specification -/

/-- The value of the variable `signer` of `NewSigner` when the loop over the options has
run, before the public key is retrieved. -/
def NewSigner.configured {C H W K : Type} (env : Env C H W K) (cfg : C)
    (kmsKeyId : String) (signingAlgo : SigningAlgorithmSpec)
    (opts : List (SignerOption H K)) : Signer H K :=
  opts.foldl (fun s opt => opt s)
    { kmsClient := env.NewFromConfig cfg,
      kmsKeyId := kmsKeyId,
      signingAlgo := signingAlgo,
      getPublicKeyTimeout := defaultGetPublicKeyTimeout,
      signTimeout := defaultSignTimeout,
      publicKey := none }

/-- The answer of the remote service to the GetPublicKey request `NewSigner` sends. -/
def NewSigner.remote {C H W K : Type} (env : Env C H W K) (sys : Sys H W) (cfg : C)
    (kmsKeyId : String) (signingAlgo : SigningAlgorithmSpec)
    (opts : List (SignerOption H K)) : Except Error GetPublicKeyOutput × W :=
  env.GetPublicKey (NewSigner.configured env cfg kmsKeyId signingAlgo opts).kmsClient sys.world
    (NewSigner.configured env cfg kmsKeyId signingAlgo opts).getPublicKeyTimeout
    { KeyId := (NewSigner.configured env cfg kmsKeyId signingAlgo opts).kmsKeyId }

/-- The service `env`, made to keep the requests it receives: its world is the world of
`env` together with the requests received so far, oldest first. Its answers and its effect
on the world of `env` are those of `env`. -/
def Env.recording {C H W K : Type} (env : Env C H W K) : Env C H (W × List (Call H)) K where
  NewFromConfig := env.NewFromConfig
  GetPublicKey := fun c w timeout input =>
    ((env.GetPublicKey c w.1 timeout input).1,
      ((env.GetPublicKey c w.1 timeout input).2, w.2 ++ [Call.GetPublicKey c timeout input]))
  Sign := fun c w timeout input =>
    ((env.Sign c w.1 timeout input).1,
      ((env.Sign c w.1 timeout input).2, w.2 ++ [Call.Sign c timeout input]))
  ParsePKIXPublicKey := env.ParsePKIXPublicKey

/-- One DER element whose length is in the short form or in the long form with one length
octet: its tag, its contents and the octets that follow it. -/
def readElement : List UInt8 → Option (UInt8 × List UInt8 × List UInt8)
  | tag :: len :: rest =>
    if len.toNat < 128 then
      if len.toNat ≤ rest.length then some (tag, rest.take len.toNat, rest.drop len.toNat)
      else none
    else if len.toNat = 129 then
      match rest with
      | n :: rest' =>
        if 128 ≤ n.toNat ∧ n.toNat ≤ rest'.length then
          some (tag, rest'.take n.toNat, rest'.drop n.toNat)
        else none
      | [] => none
    else none
  | _ => none

/-- The parts of a SubjectPublicKeyInfo (RFC 5280, section 4.1.2.7): a SEQUENCE of an
AlgorithmIdentifier, itself a SEQUENCE of an OBJECT IDENTIFIER and optional parameters, and
a BIT STRING. Returns the contents of the object identifier, the encoded parameters and the
bits of the key. -/
def readSubjectPublicKeyInfo (der : List UInt8) :
    Option (List UInt8 × List UInt8 × List UInt8) :=
  match readElement der with
  | some (0x30, body, []) =>
    match readElement body with
    | some (0x30, algorithm, rest) =>
      match readElement algorithm, readElement rest with
      | some (0x06, oid, parameters), some (0x03, unused :: bits, []) =>
        if unused.toNat < 8 ∧ oid ≠ [] ∧
            (parameters = [] ∨ ∃ e ∈ readElement parameters, e.2.2 = []) then
          some (oid, parameters, bits)
        else none
      | _, _ => none
    | _ => none
  | _ => none

/-- The octets are a well-formed SubjectPublicKeyInfo. -/
def isSubjectPublicKeyInfo (der : List UInt8) : Bool :=
  (readSubjectPublicKeyInfo der).isSome

/-- The message `msg` contains the text `part`. -/
def Error.Contains (msg part : String) : Prop := part.data <:+: msg.data

instance (msg part : String) : Decidable (Error.Contains msg part) :=
  inferInstanceAs (Decidable (part.data <:+: msg.data))

/-- The message `msg` starts with the text `start`. -/
def Error.startsWith (msg start : String) : Bool := start.data.isPrefixOf msg.data

/-- The causes a construction failure is classified by. -/
inductive ErrorClass where
  | retrieval
  | parse
  deriving DecidableEq, Repr

/-- The class of a construction error, read off the error alone: the context `NewSigner`
puts in front, followed by the context of the failed step of `retrieveAndCachePublicKey`. -/
def classify (err : Error) : Option ErrorClass :=
  if Error.startsWith err "failed to retrieve public key for signer: failed to get public key " then
    some ErrorClass.retrieval
  else if Error.startsWith err
      "failed to retrieve public key for signer: failed to parse public key bytes from KMS as a PKIX public key: " then
    some ErrorClass.parse
  else none

/-- A call of one of the two option constructors of the package, as it appears in the
argument list of `NewSigner`. -/
inductive OptionCall where
  | WithGetPublicKeyTimeout (timeout : Duration)
  | WithSignTimeout (timeout : Duration)
  deriving DecidableEq, Repr

/-- The option a constructor call evaluates to. -/
def OptionCall.toOption {H K : Type} : OptionCall → SignerOption H K
  | OptionCall.WithGetPublicKeyTimeout timeout => kmssigner.WithGetPublicKeyTimeout timeout
  | OptionCall.WithSignTimeout timeout => kmssigner.WithSignTimeout timeout

/-- The value of the last `WithGetPublicKeyTimeout` option in the list, if there is one. -/
def lastGetPublicKeyTimeout (l : List OptionCall) : Option Duration :=
  (l.filterMap fun o =>
    match o with
    | OptionCall.WithGetPublicKeyTimeout timeout => some timeout
    | OptionCall.WithSignTimeout _ => none).getLast?

/-- The value of the last `WithSignTimeout` option in the list, if there is one. -/
def lastSignTimeout (l : List OptionCall) : Option Duration :=
  (l.filterMap fun o =>
    match o with
    | OptionCall.WithGetPublicKeyTimeout _ => none
    | OptionCall.WithSignTimeout timeout => some timeout).getLast?

/-- No two options of the list set the same timeout to different values. -/
def AgreeingOptions (l : List OptionCall) : Prop :=
  (∀ a b, OptionCall.WithGetPublicKeyTimeout a ∈ l →
    OptionCall.WithGetPublicKeyTimeout b ∈ l → a = b) ∧
  (∀ a b, OptionCall.WithSignTimeout a ∈ l → OptionCall.WithSignTimeout b ∈ l → a = b)

/-- An operation a caller performs on a constructed signer. -/
inductive Op (R O : Type) where
  | Public
  | Sign (rand : R) (digest : List UInt8) (opts : O)

/-- A caller performing a sequence of operations on one signer, in order. -/
def runOps {C H W K R O : Type} (env : Env C H W K) :
    Signer H K → Sys H W → List (Op R O) → Signer H K × Sys H W
  | s, sys, [] => (s, sys)
  | s, sys, Op.Public :: rest => runOps env s.Public.2 sys rest
  | s, sys, Op.Sign rand digest opts :: rest =>
    let r := s.Sign env sys rand digest opts
    runOps env r.signer r.sys rest

/-! ## A sample service

A service that knows the single key `k1`. Its world counts the requests it has served; a
request bounded by a timeout that is not positive fails. Public keys are decoded to the
bytes after a leading `0x30` tag. -/

def sampleEnv : Env Unit Unit Nat (List UInt8) where
  NewFromConfig := fun _ => ()
  GetPublicKey := fun _ w timeout input =>
    if timeout ≤ 0 then (Except.error "context deadline exceeded", w + 1)
    else if input.KeyId = "k1" then (Except.ok { PublicKey := [0x30, 0x59, 0x01] }, w + 1)
    else if input.KeyId = "k2" then (Except.ok { PublicKey := [0xff] }, w + 1)
    else (Except.error "NotFoundException", w + 1)
  Sign := fun _ w timeout input =>
    if timeout ≤ 0 then (Except.error "context deadline exceeded", w + 1)
    else if input.KeyId = "k1" then (Except.ok { Signature := [0xde, 0xad] }, w + 1)
    else (Except.error "AccessDeniedException", w + 1)
  ParsePKIXPublicKey := fun der =>
    match der with
    | 0x30 :: rest => Except.ok rest
    | _ => Except.error "asn1: structure error"

/-- The system before any request was sent. -/
def sampleSys : Sys Unit Nat := { world := 0, calls := [] }

/-- A signer for the key `k1` of the sample service. -/
def sampleSigner : Signer Unit (List UInt8) :=
  { kmsClient := (), kmsKeyId := "k1", signingAlgo := "ECDSA_SHA_256",
    getPublicKeyTimeout := 5, signTimeout := 7, publicKey := some [0x59, 0x01] }

/-- A signer for a key the sample service refuses to sign with. -/
def deniedSigner : Signer Unit (List UInt8) :=
  { kmsClient := (), kmsKeyId := "k9", signingAlgo := "ECDSA_SHA_256",
    getPublicKeyTimeout := 5, signTimeout := 7, publicKey := none }

/-! ## A sample service with elliptic-curve keys

A service that holds the key `sm2`, a public key on the curve SM2, and a decoder that, in
the manner of `x509.ParsePKIXPublicKey`, decodes the keys of the algorithms and curves it
supports and rejects every other key; here it supports the curve P-256 only. -/

/-- The SubjectPublicKeyInfo of a public key on the curve SM2: algorithm `id-ecPublicKey`
(1.2.840.10045.2.1), named curve 1.2.156.10197.1.301, and an uncompressed point. -/
def sm2PublicKey : List UInt8 :=
  [0x30, 0x59, 0x30, 0x13,
   0x06, 0x07, 0x2a, 0x86, 0x48, 0xce, 0x3d, 0x02, 0x01,
   0x06, 0x08, 0x2a, 0x81, 0x1c, 0xcf, 0x55, 0x01, 0x82, 0x2d,
   0x03, 0x42, 0x00, 0x04,
   0x09, 0xf9, 0xdf, 0x31, 0x1e, 0x54, 0x21, 0xa1, 0x50, 0xdd, 0x7d, 0x16, 0x1e, 0x4b, 0xc5, 0xc6,
   0x72, 0x17, 0x9f, 0xad, 0x18, 0x33, 0xfc, 0x07, 0x6b, 0xb0, 0x8f, 0xf3, 0x56, 0xf3, 0x50, 0x20,
   0xcc, 0xea, 0x49, 0x0c, 0xe2, 0x67, 0x75, 0xa5, 0x2d, 0xc6, 0xea, 0x71, 0x8c, 0xc1, 0xaa, 0x60,
   0x0a, 0xed, 0x05, 0xfb, 0xf3, 0x5e, 0x08, 0x4a, 0x66, 0x32, 0xf6, 0x07, 0x2d, 0xa9, 0xad, 0x13]

/-- A decoder of SubjectPublicKeyInfo that supports `id-ecPublicKey` keys on the curve P-256
(1.2.840.10045.3.1.7) and answers with the errors of `x509.ParsePKIXPublicKey` otherwise. -/
def parseP256 (der : List UInt8) : Except Error (List UInt8) :=
  match readSubjectPublicKeyInfo der with
  | none => Except.error "asn1: structure error"
  | some (oid, parameters, bits) =>
    if oid = [0x2a, 0x86, 0x48, 0xce, 0x3d, 0x02, 0x01] then
      if parameters = [0x06, 0x08, 0x2a, 0x86, 0x48, 0xce, 0x3d, 0x03, 0x01, 0x07] then
        Except.ok bits
      else Except.error "x509: unsupported elliptic curve"
    else Except.error "x509: unknown public key algorithm"

def curveEnv : Env Unit Unit Nat (List UInt8) where
  NewFromConfig := fun _ => ()
  GetPublicKey := fun _ w _ input =>
    if input.KeyId = "sm2" then (Except.ok { PublicKey := sm2PublicKey }, w + 1)
    else (Except.error "NotFoundException", w + 1)
  Sign := fun _ w _ _ => (Except.error "AccessDeniedException", w + 1)
  ParsePKIXPublicKey := parseP256

/-! ## Theorems -/

theorem Error.contains_self (a : String) : Error.Contains a a :=
  List.infix_refl _

theorem Error.contains_append_left {a p : String} (b : String) (h : Error.Contains a p) :
    Error.Contains (a ++ b) p := by
  unfold Error.Contains at h ⊢
  rw [String.data_append]
  exact h.trans (List.prefix_append _ _).isInfix

theorem Error.contains_append_right {b p : String} (a : String) (h : Error.Contains b p) :
    Error.Contains (a ++ b) p := by
  unfold Error.Contains at h ⊢
  rw [String.data_append]
  exact h.trans (List.suffix_append _ _).isInfix

/-- The result of `NewSigner` when the remote GetPublicKey call fails. -/
theorem NewSigner_of_remote_error {C H W K : Type} (env : Env C H W K) (sys : Sys H W)
    (cfg : C) (k : String) (algo : SigningAlgorithmSpec) (opts : List (SignerOption H K))
    (e : Error) (h : (NewSigner.remote env sys cfg k algo opts).1 = Except.error e) :
    (NewSigner env sys cfg k algo opts).signer = none ∧
      (NewSigner env sys cfg k algo opts).err = some
        ("failed to retrieve public key for signer: " ++
          ("failed to get public key " ++ (NewSigner.configured env cfg k algo opts).kmsKeyId
            ++ " from KMS: " ++ e)) := by
  simp only [NewSigner.remote, NewSigner.configured] at h
  simp only [NewSigner, Signer.retrieveAndCachePublicKey, NewSigner.configured, h]
  exact ⟨trivial, trivial⟩

/-- The result of `NewSigner` when the bytes the remote call returns do not parse. -/
theorem NewSigner_of_parse_error {C H W K : Type} (env : Env C H W K) (sys : Sys H W)
    (cfg : C) (k : String) (algo : SigningAlgorithmSpec) (opts : List (SignerOption H K))
    (b : List UInt8) (e : Error)
    (h : (NewSigner.remote env sys cfg k algo opts).1 = Except.ok { PublicKey := b })
    (hp : env.ParsePKIXPublicKey b = Except.error e) :
    (NewSigner env sys cfg k algo opts).signer = none ∧
      (NewSigner env sys cfg k algo opts).err = some
        ("failed to retrieve public key for signer: " ++
          ("failed to parse public key bytes from KMS as a PKIX public key: " ++ e)) := by
  simp only [NewSigner.remote, NewSigner.configured] at h
  simp only [NewSigner, Signer.retrieveAndCachePublicKey, NewSigner.configured, h, hp]
  exact ⟨trivial, trivial⟩

/-- The result of `NewSigner` when the bytes the remote call returns parse. -/
theorem NewSigner_of_parsed {C H W K : Type} (env : Env C H W K) (sys : Sys H W)
    (cfg : C) (k : String) (algo : SigningAlgorithmSpec) (opts : List (SignerOption H K))
    (b : List UInt8) (pk : K)
    (h : (NewSigner.remote env sys cfg k algo opts).1 = Except.ok { PublicKey := b })
    (hp : env.ParsePKIXPublicKey b = Except.ok pk) :
    (NewSigner env sys cfg k algo opts).signer =
        some { NewSigner.configured env cfg k algo opts with publicKey := some pk } ∧
      (NewSigner env sys cfg k algo opts).err = none := by
  simp only [NewSigner.remote, NewSigner.configured] at h
  simp only [NewSigner, Signer.retrieveAndCachePublicKey, NewSigner.configured, h, hp]
  exact ⟨trivial, trivial⟩

/-- The three ways the retrieval of the public key can end. -/
theorem NewSigner_cases {C H W K : Type} (env : Env C H W K) (sys : Sys H W)
    (cfg : C) (k : String) (algo : SigningAlgorithmSpec) (opts : List (SignerOption H K)) :
    (∃ e, (NewSigner.remote env sys cfg k algo opts).1 = Except.error e) ∨
    (∃ b e, (NewSigner.remote env sys cfg k algo opts).1 = Except.ok { PublicKey := b } ∧
      env.ParsePKIXPublicKey b = Except.error e) ∨
    (∃ b pk, (NewSigner.remote env sys cfg k algo opts).1 = Except.ok { PublicKey := b } ∧
      env.ParsePKIXPublicKey b = Except.ok pk) := by
  cases h : (NewSigner.remote env sys cfg k algo opts).1 with
  | error e => exact Or.inl ⟨e, rfl⟩
  | ok out =>
    obtain ⟨b⟩ := out
    cases hp : env.ParsePKIXPublicKey b with
    | error e => exact Or.inr (Or.inl ⟨b, e, rfl, hp⟩)
    | ok pk => exact Or.inr (Or.inr ⟨b, pk, rfl, hp⟩)

theorem classify_retrieval (kid e : String) :
    classify ("failed to retrieve public key for signer: " ++
      ("failed to get public key " ++ kid ++ " from KMS: " ++ e)) =
      some ErrorClass.retrieval := by
  simp [classify, Error.startsWith, String.data_append, List.isPrefixOf]

theorem classify_parse (e : String) :
    classify ("failed to retrieve public key for signer: " ++
      ("failed to parse public key bytes from KMS as a PKIX public key: " ++ e)) =
      some ErrorClass.parse := by
  simp [classify, Error.startsWith, String.data_append, List.isPrefixOf]

/-- The loop over a list of options built by the two constructors: each timeout ends as the
value of the last option that sets it, every other field is left as it was. -/
theorem foldl_options {H K : Type} (l : List OptionCall) (s : Signer H K) :
    (l.map OptionCall.toOption).foldl (fun s opt => opt s) s =
      { s with
        getPublicKeyTimeout := (lastGetPublicKeyTimeout l).getD s.getPublicKeyTimeout,
        signTimeout := (lastSignTimeout l).getD s.signTimeout } := by
  induction l generalizing s with
  | nil => rfl
  | cons c cs ih =>
    rw [List.map_cons, List.foldl_cons, ih]
    cases c <;>
      simp [OptionCall.toOption, WithGetPublicKeyTimeout, WithSignTimeout,
        lastGetPublicKeyTimeout, lastSignTimeout, List.filterMap_cons, List.getLast?_cons]

theorem configured_options {C H W K : Type} (env : Env C H W K) (cfg : C) (k : String)
    (algo : SigningAlgorithmSpec) (l : List OptionCall) :
    NewSigner.configured env cfg k algo (l.map OptionCall.toOption) =
      { kmsClient := env.NewFromConfig cfg,
        kmsKeyId := k,
        signingAlgo := algo,
        getPublicKeyTimeout := (lastGetPublicKeyTimeout l).getD defaultGetPublicKeyTimeout,
        signTimeout := (lastSignTimeout l).getD defaultSignTimeout,
        publicKey := none } := by
  rw [NewSigner.configured, foldl_options]

/-- The signer `NewSigner` returns is the configured signer with the public key filled in. -/
theorem NewSigner_signer_eq {C H W K : Type} (env : Env C H W K) (sys : Sys H W)
    (cfg : C) (k : String) (algo : SigningAlgorithmSpec) (opts : List (SignerOption H K))
    (s : Signer H K) (h : (NewSigner env sys cfg k algo opts).signer = some s) :
    ∃ pk, s = { NewSigner.configured env cfg k algo opts with publicKey := some pk } := by
  rcases NewSigner_cases env sys cfg k algo opts with ⟨e, hr⟩ | ⟨b, e, hr, hp⟩ | ⟨b, pk, hr, hp⟩
  · rw [(NewSigner_of_remote_error env sys cfg k algo opts e hr).1] at h
    cases h
  · rw [(NewSigner_of_parse_error env sys cfg k algo opts b e hr hp).1] at h
    cases h
  · rw [(NewSigner_of_parsed env sys cfg k algo opts b pk hr hp).1] at h
    cases h
    exact ⟨pk, rfl⟩

theorem lastGetPublicKeyTimeout_mem {l : List OptionCall} {a : Duration}
    (h : lastGetPublicKeyTimeout l = some a) : OptionCall.WithGetPublicKeyTimeout a ∈ l := by
  have hm := List.mem_of_getLast?_eq_some h
  rw [List.mem_filterMap] at hm
  obtain ⟨o, ho, hoa⟩ := hm
  cases o with
  | WithGetPublicKeyTimeout t =>
    simp only [Option.some.injEq] at hoa
    exact hoa ▸ ho
  | WithSignTimeout t => cases hoa

theorem lastGetPublicKeyTimeout_none {l : List OptionCall}
    (h : lastGetPublicKeyTimeout l = none) (a : Duration) :
    OptionCall.WithGetPublicKeyTimeout a ∉ l := by
  intro ha
  have hm : a ∈ l.filterMap fun o =>
      match o with
      | OptionCall.WithGetPublicKeyTimeout timeout => some timeout
      | OptionCall.WithSignTimeout _ => none :=
    List.mem_filterMap.2 ⟨_, ha, rfl⟩
  rw [lastGetPublicKeyTimeout, List.getLast?_eq_none_iff] at h
  rw [h] at hm
  cases hm

theorem lastSignTimeout_mem {l : List OptionCall} {a : Duration}
    (h : lastSignTimeout l = some a) : OptionCall.WithSignTimeout a ∈ l := by
  have hm := List.mem_of_getLast?_eq_some h
  rw [List.mem_filterMap] at hm
  obtain ⟨o, ho, hoa⟩ := hm
  cases o with
  | WithGetPublicKeyTimeout t => cases hoa
  | WithSignTimeout t =>
    simp only [Option.some.injEq] at hoa
    exact hoa ▸ ho

theorem lastSignTimeout_none {l : List OptionCall}
    (h : lastSignTimeout l = none) (a : Duration) :
    OptionCall.WithSignTimeout a ∉ l := by
  intro ha
  have hm : a ∈ l.filterMap fun o =>
      match o with
      | OptionCall.WithGetPublicKeyTimeout _ => none
      | OptionCall.WithSignTimeout timeout => some timeout :=
    List.mem_filterMap.2 ⟨_, ha, rfl⟩
  rw [lastSignTimeout, List.getLast?_eq_none_iff] at h
  rw [h] at hm
  cases hm

/-- A caller that only reads the key and signs leaves the signer as it was. -/
theorem runOps_signer {C H W K R O : Type} (env : Env C H W K) (ops : List (Op R O))
    (s : Signer H K) (sys : Sys H W) : (runOps env s sys ops).1 = s := by
  induction ops generalizing sys with
  | nil => rfl
  | cons op rest ih =>
    cases op with
    | Public => exact ih sys
    | Sign rand digest opts =>
      have hs : (s.Sign env sys rand digest opts).signer = s := by
        simp only [Signer.Sign]
        split <;> rfl
      simp only [runOps, hs]
      exact ih _

/-- The GetPublicKey request of `NewSigner` for options built by the two constructors. -/
theorem remote_options {C H W K : Type} (env : Env C H W K) (sys : Sys H W) (cfg : C)
    (k : String) (algo : SigningAlgorithmSpec) (l : List OptionCall) :
    NewSigner.remote env sys cfg k algo (l.map OptionCall.toOption) =
      env.GetPublicKey (env.NewFromConfig cfg) sys.world
        ((lastGetPublicKeyTimeout l).getD defaultGetPublicKeyTimeout) { KeyId := k } := by
  rw [NewSigner.remote, configured_options]

/-- `NewSigner` returns a signer exactly when the service answers with bytes that parse. -/
theorem NewSigner_signer_iff {C H W K : Type} (env : Env C H W K) (sys : Sys H W)
    (cfg : C) (k : String) (algo : SigningAlgorithmSpec) (opts : List (SignerOption H K)) :
    (NewSigner env sys cfg k algo opts).signer ≠ none ↔
      ∃ b pk, (NewSigner.remote env sys cfg k algo opts).1 = Except.ok { PublicKey := b } ∧
        env.ParsePKIXPublicKey b = Except.ok pk := by
  rcases NewSigner_cases env sys cfg k algo opts with ⟨e, h⟩ | ⟨b, e, h, hp⟩ | ⟨b, pk, h, hp⟩
  · constructor
    · intro hs
      exact absurd (NewSigner_of_remote_error env sys cfg k algo opts e h).1 hs
    · rintro ⟨b, pk, hb, -⟩
      rw [h] at hb
      cases hb
  · constructor
    · intro hs
      exact absurd (NewSigner_of_parse_error env sys cfg k algo opts b e h hp).1 hs
    · rintro ⟨b', pk, hb, hpk⟩
      rw [h] at hb
      cases hb
      rw [hp] at hpk
      cases hpk
  · constructor
    · intro _
      exact ⟨b, pk, h, hp⟩
    · intro _
      simp [(NewSigner_of_parsed env sys cfg k algo opts b pk h hp).1]

/-- C1: when the remote Sign call succeeds with signature bytes `b`, `Signer.Sign` returns
exactly `b` together with a nil error, for every signer, digest, rand and opts. -/
theorem Sign_returns_remote_signature {C H W K R O : Type} (env : Env C H W K)
    (s : Signer H K) (sys : Sys H W) (rand : R) (digest : List UInt8) (opts : O)
    (b : List UInt8)
    (h : (env.Sign s.kmsClient sys.world s.signTimeout
      { KeyId := s.kmsKeyId, Message := digest, MessageType := MessageType.DIGEST,
        SigningAlgorithm := s.signingAlgo }).1 = Except.ok { Signature := b }) :
    (s.Sign env sys rand digest opts).signature = b ∧
      (s.Sign env sys rand digest opts).err = none := by
  simp only [Signer.Sign, MessageTypeDigest]
  rw [h]
  exact ⟨rfl, rfl⟩

theorem Sign_returns_remote_signature_witness :
    (sampleEnv.Sign sampleSigner.kmsClient sampleSys.world sampleSigner.signTimeout
      { KeyId := sampleSigner.kmsKeyId, Message := [], MessageType := MessageType.DIGEST,
        SigningAlgorithm := sampleSigner.signingAlgo }).1 = Except.ok { Signature := [0xde, 0xad] } ∧
    (sampleSigner.Sign sampleEnv sampleSys () [] ()).signature = [0xde, 0xad] ∧
      (sampleSigner.Sign sampleEnv sampleSys () [] ()).err = none :=
  ⟨rfl, Sign_returns_remote_signature sampleEnv sampleSigner sampleSys () [] ()
    [0xde, 0xad] rfl⟩

/-- C2: whatever the service, `Signer.Sign` acts on it through a remote Sign call whose
request has KeyId equal to the configured key identifier, Message equal to the digest
unchanged, MessageType DIGEST and SigningAlgorithm equal to the configured algorithm; a
service that records what it receives has received exactly this one request more; two calls
that differ only in the rand and opts arguments make the service receive identical requests
(and return identical results). -/
theorem Sign_request_ignores_rand_and_opts {C H W K R O R' O' : Type} (env : Env C H W K)
    (s : Signer H K) (sys : Sys H W) (digest : List UInt8) (rand : R) (opts : O)
    (rand' : R') (opts' : O') (received : List (Call H)) :
    (s.Sign env sys rand digest opts).sys.world =
        (env.Sign s.kmsClient sys.world s.signTimeout
          { KeyId := s.kmsKeyId, Message := digest, MessageType := MessageType.DIGEST,
            SigningAlgorithm := s.signingAlgo }).2 ∧
      (s.Sign env.recording { world := (sys.world, received), calls := sys.calls }
          rand digest opts).sys.world.2 =
        received ++ [Call.Sign s.kmsClient s.signTimeout
          { KeyId := s.kmsKeyId, Message := digest, MessageType := MessageType.DIGEST,
            SigningAlgorithm := s.signingAlgo }] ∧
      (s.Sign env.recording { world := (sys.world, received), calls := sys.calls }
          rand' digest opts').sys.world.2 =
        (s.Sign env.recording { world := (sys.world, received), calls := sys.calls }
          rand digest opts).sys.world.2 ∧
      s.Sign env sys rand' digest opts' = s.Sign env sys rand digest opts := by
  refine ⟨?_, ?_, rfl, rfl⟩
  · simp only [Signer.Sign, MessageTypeDigest]
    split <;> rfl
  · simp only [Signer.Sign, MessageTypeDigest, Env.recording]
    split <;> rfl

/-- C5: `Signer.Sign` returns a non-nil error exactly when the remote Sign call returns an
error; in that case the returned signature is nil and the message of the returned error
contains the message of the remote error. -/
theorem Sign_error_iff_remote_error {C H W K R O : Type} (env : Env C H W K)
    (s : Signer H K) (sys : Sys H W) (rand : R) (digest : List UInt8) (opts : O) :
    ((s.Sign env sys rand digest opts).err ≠ none ↔
      ∃ e, (env.Sign s.kmsClient sys.world s.signTimeout
        { KeyId := s.kmsKeyId, Message := digest, MessageType := MessageType.DIGEST,
          SigningAlgorithm := s.signingAlgo }).1 = Except.error e) ∧
    ∀ e, (env.Sign s.kmsClient sys.world s.signTimeout
        { KeyId := s.kmsKeyId, Message := digest, MessageType := MessageType.DIGEST,
          SigningAlgorithm := s.signingAlgo }).1 = Except.error e →
      (s.Sign env sys rand digest opts).signature = [] ∧
      ∃ msg, (s.Sign env sys rand digest opts).err = some msg ∧ Error.Contains msg e := by
  simp only [Signer.Sign, MessageTypeDigest]
  cases hr : (env.Sign s.kmsClient sys.world s.signTimeout
        { KeyId := s.kmsKeyId, Message := digest, MessageType := MessageType.DIGEST,
          SigningAlgorithm := s.signingAlgo }).1 with
  | error e0 =>
    refine ⟨⟨fun _ => ⟨e0, rfl⟩, fun _ => by simp⟩, ?_⟩
    intro e he
    cases he
    refine ⟨rfl, _, rfl, ?_⟩
    exact Error.contains_append_right _ (Error.contains_self e0)
  | ok out =>
    refine ⟨⟨fun h => absurd rfl h, fun ⟨e, he⟩ => by cases he⟩, ?_⟩
    intro e he
    cases he

theorem Sign_error_iff_remote_error_witness :
    (sampleEnv.Sign deniedSigner.kmsClient sampleSys.world deniedSigner.signTimeout
        { KeyId := deniedSigner.kmsKeyId, Message := [1, 2], MessageType := MessageType.DIGEST,
          SigningAlgorithm := deniedSigner.signingAlgo }).1 =
        Except.error "AccessDeniedException" ∧
      (deniedSigner.Sign sampleEnv sampleSys () [1, 2] ()).signature = [] ∧
      ∃ msg, (deniedSigner.Sign sampleEnv sampleSys () [1, 2] ()).err = some msg ∧
        Error.Contains msg "AccessDeniedException" :=
  ⟨rfl, (Sign_error_iff_remote_error sampleEnv deniedSigner sampleSys () [1, 2] ()).2
    "AccessDeniedException" rfl⟩

/-- C3: `NewSigner` returns either a signer with a nil error or a nil signer with an error,
never both and never neither; it returns a signer exactly when the remote GetPublicKey call
succeeds and the returned bytes parse as a PKIX public key. -/
theorem NewSigner_atomic {C H W K : Type} (env : Env C H W K) (sys : Sys H W)
    (cfg : C) (k : String) (algo : SigningAlgorithmSpec) (opts : List (SignerOption H K)) :
    (((NewSigner env sys cfg k algo opts).signer ≠ none ∧
        (NewSigner env sys cfg k algo opts).err = none) ∨
      ((NewSigner env sys cfg k algo opts).signer = none ∧
        (NewSigner env sys cfg k algo opts).err ≠ none)) ∧
    ((NewSigner env sys cfg k algo opts).signer ≠ none ↔
      ∃ b pk, (NewSigner.remote env sys cfg k algo opts).1 = Except.ok { PublicKey := b } ∧
        env.ParsePKIXPublicKey b = Except.ok pk) := by
  rcases NewSigner_cases env sys cfg k algo opts with ⟨e, h⟩ | ⟨b, e, h, hp⟩ | ⟨b, pk, h, hp⟩
  · have hr := NewSigner_of_remote_error env sys cfg k algo opts e h
    refine ⟨Or.inr ⟨hr.1, by simp [hr.2]⟩, ?_⟩
    constructor
    · intro hs
      exact absurd hr.1 hs
    · rintro ⟨b, pk, hb, -⟩
      rw [h] at hb
      cases hb
  · have hr := NewSigner_of_parse_error env sys cfg k algo opts b e h hp
    refine ⟨Or.inr ⟨hr.1, by simp [hr.2]⟩, ?_⟩
    constructor
    · intro hs
      exact absurd hr.1 hs
    · rintro ⟨b', pk, hb, hpk⟩
      rw [h] at hb
      cases hb
      rw [hp] at hpk
      cases hpk
  · have hr := NewSigner_of_parsed env sys cfg k algo opts b pk h hp
    refine ⟨Or.inl ⟨by simp [hr.1], hr.2⟩, ?_⟩
    constructor
    · intro _
      exact ⟨b, pk, h, hp⟩
    · intro _
      simp [hr.1]

/-- C4, refuted as stated: the service answers the GetPublicKey request for the key `sm2`
with a well-formed SubjectPublicKeyInfo, the decoder does not support its curve, and
`NewSigner` returns no signer and a parse error. -/
theorem wellformed_key_not_decoded :
    (NewSigner.remote curveEnv sampleSys () "sm2" "SM2DSA" []).1 =
        Except.ok { PublicKey := sm2PublicKey } ∧
      isSubjectPublicKeyInfo sm2PublicKey = true ∧
      curveEnv.ParsePKIXPublicKey sm2PublicKey =
        Except.error "x509: unsupported elliptic curve" ∧
      (NewSigner curveEnv sampleSys () "sm2" "SM2DSA" []).signer = none ∧
      (NewSigner curveEnv sampleSys () "sm2" "SM2DSA" []).err = some
        ("failed to retrieve public key for signer: failed to parse public key bytes " ++
          "from KMS as a PKIX public key: x509: unsupported elliptic curve") := by
  have hp : curveEnv.ParsePKIXPublicKey sm2PublicKey =
      Except.error "x509: unsupported elliptic curve" := rfl
  have hr := NewSigner_of_parse_error curveEnv sampleSys () "sm2" "SM2DSA" [] sm2PublicKey
    "x509: unsupported elliptic curve" rfl hp
  exact ⟨rfl, by decide, hp, hr.1, hr.2⟩

/-- C4, amended: when the decoder decodes the bytes `b` the remote GetPublicKey call returns
to the key `pk`, `NewSigner` returns a signer and a nil error, and `Public` on that signer
returns `pk`, which is not nil. -/
theorem NewSigner_caches_decoded_key {C H W K : Type} (env : Env C H W K) (sys : Sys H W)
    (cfg : C) (k : String) (algo : SigningAlgorithmSpec) (opts : List (SignerOption H K))
    (b : List UInt8) (pk : K)
    (h : (NewSigner.remote env sys cfg k algo opts).1 = Except.ok { PublicKey := b })
    (hp : env.ParsePKIXPublicKey b = Except.ok pk) :
    ∃ s, (NewSigner env sys cfg k algo opts).signer = some s ∧
      (NewSigner env sys cfg k algo opts).err = none ∧
      s.Public.1 = some pk ∧ s.Public.1 ≠ none := by
  have hr := NewSigner_of_parsed env sys cfg k algo opts b pk h hp
  exact ⟨_, hr.1, hr.2, rfl, by simp [Signer.Public]⟩

theorem NewSigner_caches_decoded_key_witness :
    (NewSigner.remote sampleEnv sampleSys () "k1" "ECDSA_SHA_256" []).1 =
        Except.ok { PublicKey := [0x30, 0x59, 0x01] } ∧
      sampleEnv.ParsePKIXPublicKey [0x30, 0x59, 0x01] = Except.ok [0x59, 0x01] ∧
      ∃ s, (NewSigner sampleEnv sampleSys () "k1" "ECDSA_SHA_256" []).signer = some s ∧
        (NewSigner sampleEnv sampleSys () "k1" "ECDSA_SHA_256" []).err = none ∧
        s.Public.1 = some [0x59, 0x01] ∧ s.Public.1 ≠ none :=
  ⟨rfl, rfl, NewSigner_caches_decoded_key sampleEnv sampleSys () "k1" "ECDSA_SHA_256" []
    [0x30, 0x59, 0x01] [0x59, 0x01] rfl rfl⟩

/-- C6: when the remote GetPublicKey call errors, `NewSigner` fails with an error of the
retrieval class that carries the message of the cause; when the call succeeds and the
returned bytes do not parse, it fails with an error of the parse class; the class read off
the returned error tells the two causes apart for every input. -/
theorem NewSigner_error_classes {C H W K : Type} (env : Env C H W K) (sys : Sys H W)
    (cfg : C) (k : String) (algo : SigningAlgorithmSpec) (opts : List (SignerOption H K)) :
    (∀ e, (NewSigner.remote env sys cfg k algo opts).1 = Except.error e →
      (NewSigner env sys cfg k algo opts).signer = none ∧
      ∃ msg, (NewSigner env sys cfg k algo opts).err = some msg ∧
        classify msg = some ErrorClass.retrieval ∧ Error.Contains msg e) ∧
    (∀ b e, (NewSigner.remote env sys cfg k algo opts).1 = Except.ok { PublicKey := b } →
      env.ParsePKIXPublicKey b = Except.error e →
      (NewSigner env sys cfg k algo opts).signer = none ∧
      ∃ msg, (NewSigner env sys cfg k algo opts).err = some msg ∧
        classify msg = some ErrorClass.parse ∧ Error.Contains msg e) ∧
    (∀ msg, (NewSigner env sys cfg k algo opts).err = some msg →
      (classify msg = some ErrorClass.retrieval ↔
        ∃ e, (NewSigner.remote env sys cfg k algo opts).1 = Except.error e) ∧
      (classify msg = some ErrorClass.parse ↔
        ∃ b e, (NewSigner.remote env sys cfg k algo opts).1 = Except.ok { PublicKey := b } ∧
          env.ParsePKIXPublicKey b = Except.error e)) := by
  refine ⟨?_, ?_, ?_⟩
  · intro e h
    have hr := NewSigner_of_remote_error env sys cfg k algo opts e h
    exact ⟨hr.1, _, hr.2, classify_retrieval _ _,
      Error.contains_append_right _ (Error.contains_append_right _ (Error.contains_self e))⟩
  · intro b e h hp
    have hr := NewSigner_of_parse_error env sys cfg k algo opts b e h hp
    exact ⟨hr.1, _, hr.2, classify_parse _,
      Error.contains_append_right _ (Error.contains_append_right _ (Error.contains_self e))⟩
  · intro msg hmsg
    rcases NewSigner_cases env sys cfg k algo opts with ⟨e, h⟩ | ⟨b, e, h, hp⟩ | ⟨b, pk, h, hp⟩
    · have hr := NewSigner_of_remote_error env sys cfg k algo opts e h
      rw [hr.2] at hmsg
      cases hmsg
      rw [classify_retrieval]
      refine ⟨Iff.intro (fun _ => ⟨e, h⟩) (fun _ => rfl), Iff.intro (fun hc => by cases hc) ?_⟩
      rintro ⟨b, e', hb, -⟩
      rw [h] at hb
      cases hb
    · have hr := NewSigner_of_parse_error env sys cfg k algo opts b e h hp
      rw [hr.2] at hmsg
      cases hmsg
      rw [classify_parse]
      refine ⟨Iff.intro (fun hc => by cases hc) ?_,
        Iff.intro (fun _ => ⟨b, e, h, hp⟩) (fun _ => rfl)⟩
      rintro ⟨e', he'⟩
      rw [h] at he'
      cases he'
    · have hr := NewSigner_of_parsed env sys cfg k algo opts b pk h hp
      rw [hr.2] at hmsg
      cases hmsg

theorem NewSigner_error_classes_witness :
    ((NewSigner.remote sampleEnv sampleSys () "k3" "ECDSA_SHA_256" []).1 =
        Except.error "NotFoundException" ∧
      (NewSigner sampleEnv sampleSys () "k3" "ECDSA_SHA_256" []).signer = none ∧
      ∃ msg, (NewSigner sampleEnv sampleSys () "k3" "ECDSA_SHA_256" []).err = some msg ∧
        classify msg = some ErrorClass.retrieval ∧ Error.Contains msg "NotFoundException") ∧
    ((NewSigner.remote sampleEnv sampleSys () "k2" "ECDSA_SHA_256" []).1 =
        Except.ok { PublicKey := [0xff] } ∧
      sampleEnv.ParsePKIXPublicKey [0xff] = Except.error "asn1: structure error" ∧
      (NewSigner sampleEnv sampleSys () "k2" "ECDSA_SHA_256" []).signer = none ∧
      ∃ msg, (NewSigner sampleEnv sampleSys () "k2" "ECDSA_SHA_256" []).err = some msg ∧
        classify msg = some ErrorClass.parse ∧ Error.Contains msg "asn1: structure error") :=
  ⟨⟨rfl, (NewSigner_error_classes sampleEnv sampleSys () "k3" "ECDSA_SHA_256" []).1
      "NotFoundException" rfl⟩,
    ⟨rfl, rfl, (NewSigner_error_classes sampleEnv sampleSys () "k2" "ECDSA_SHA_256" []).2.1
      [0xff] "asn1: structure error" rfl rfl⟩⟩

set_option maxRecDepth 100000 in
/-- C7, refuted as stated: the error `NewSigner` returns when the key `k2` does not parse,
and the error `Signer.Sign` returns when the service refuses to sign with the key `k9`,
do not contain the key identifier. -/
theorem error_without_key_identifier :
    ((NewSigner sampleEnv sampleSys () "k2" "ECDSA_SHA_256" []).err = some
        ("failed to retrieve public key for signer: failed to parse public key bytes " ++
          "from KMS as a PKIX public key: asn1: structure error") ∧
      ¬ Error.Contains
        ("failed to retrieve public key for signer: failed to parse public key bytes " ++
          "from KMS as a PKIX public key: asn1: structure error") "k2") ∧
    ((deniedSigner.Sign sampleEnv sampleSys () [1, 2] ()).err = some
        "failed to sign digest with KMS: AccessDeniedException" ∧
      deniedSigner.kmsKeyId = "k9" ∧
      ¬ Error.Contains "failed to sign digest with KMS: AccessDeniedException" "k9") := by
  refine ⟨⟨?_, ?_⟩, ?_, rfl, ?_⟩
  · decide
  · decide
  · decide
  · decide

/-- C7, amended: every error `NewSigner` or `Signer.Sign` returns names the failed operation
and contains the message of the underlying cause; the error for a failed remote
GetPublicKey call also contains the key identifier. -/
theorem errors_carry_context {C H W K R O : Type} (env : Env C H W K) (sys : Sys H W)
    (cfg : C) (k : String) (algo : SigningAlgorithmSpec) (l : List OptionCall)
    (s : Signer H K) (rand : R) (digest : List UInt8) (opts : O) :
    (∀ e, (NewSigner.remote env sys cfg k algo (l.map OptionCall.toOption)).1 =
        Except.error e →
      ∃ msg, (NewSigner env sys cfg k algo (l.map OptionCall.toOption)).err = some msg ∧
        Error.Contains msg "failed to retrieve public key for signer: " ∧
        Error.Contains msg "failed to get public key " ∧
        Error.Contains msg k ∧ Error.Contains msg e) ∧
    (∀ b e, (NewSigner.remote env sys cfg k algo (l.map OptionCall.toOption)).1 =
        Except.ok { PublicKey := b } →
      env.ParsePKIXPublicKey b = Except.error e →
      ∃ msg, (NewSigner env sys cfg k algo (l.map OptionCall.toOption)).err = some msg ∧
        Error.Contains msg "failed to retrieve public key for signer: " ∧
        Error.Contains msg "failed to parse public key bytes from KMS as a PKIX public key: " ∧
        Error.Contains msg e) ∧
    (∀ e, (env.Sign s.kmsClient sys.world s.signTimeout
        { KeyId := s.kmsKeyId, Message := digest, MessageType := MessageType.DIGEST,
          SigningAlgorithm := s.signingAlgo }).1 = Except.error e →
      ∃ msg, (s.Sign env sys rand digest opts).err = some msg ∧
        Error.Contains msg "failed to sign digest with KMS: " ∧ Error.Contains msg e) := by
  refine ⟨?_, ?_, ?_⟩
  · intro e h
    have hr := NewSigner_of_remote_error env sys cfg k algo _ e h
    rw [configured_options] at hr
    refine ⟨_, hr.2, ?_, ?_, ?_, ?_⟩
    · exact Error.contains_append_left _ (Error.contains_self _)
    · exact Error.contains_append_right _ (Error.contains_append_left _
        (Error.contains_append_left _ (Error.contains_append_left _ (Error.contains_self _))))
    · exact Error.contains_append_right _ (Error.contains_append_left _
        (Error.contains_append_left _ (Error.contains_append_right _ (Error.contains_self _))))
    · exact Error.contains_append_right _ (Error.contains_append_right _
        (Error.contains_self _))
  · intro b e h hp
    have hr := NewSigner_of_parse_error env sys cfg k algo _ b e h hp
    refine ⟨_, hr.2, ?_, ?_, ?_⟩
    · exact Error.contains_append_left _ (Error.contains_self _)
    · exact Error.contains_append_right _ (Error.contains_append_left _
        (Error.contains_self _))
    · exact Error.contains_append_right _ (Error.contains_append_right _
        (Error.contains_self _))
  · intro e h
    simp only [Signer.Sign, MessageTypeDigest, h]
    refine ⟨_, rfl, ?_, ?_⟩
    · exact Error.contains_append_left _ (Error.contains_self _)
    · exact Error.contains_append_right _ (Error.contains_self _)

theorem errors_carry_context_witness :
    (NewSigner.remote sampleEnv sampleSys () "k3" "ECDSA_SHA_256"
        ([OptionCall.WithSignTimeout 3].map OptionCall.toOption)).1 =
        Except.error "NotFoundException" ∧
      ∃ msg, (NewSigner sampleEnv sampleSys () "k3" "ECDSA_SHA_256"
          ([OptionCall.WithSignTimeout 3].map OptionCall.toOption)).err = some msg ∧
        Error.Contains msg "failed to retrieve public key for signer: " ∧
        Error.Contains msg "failed to get public key " ∧
        Error.Contains msg "k3" ∧ Error.Contains msg "NotFoundException" :=
  ⟨rfl, (errors_carry_context sampleEnv sampleSys () "k3" "ECDSA_SHA_256"
    [OptionCall.WithSignTimeout 3] deniedSigner () [] ()).1 "NotFoundException" rfl⟩

/-- C8: both timeouts default to 10 seconds; the remote GetPublicKey call `NewSigner` makes,
whose answer decides its result, is bounded by the value of the last
`WithGetPublicKeyTimeout` option of the list, or by 10 seconds if there is none; the
returned signer holds these two timeouts, and every remote Sign call it makes is bounded by
the value of the last `WithSignTimeout` option, or by 10 seconds if there is none; a service
that records what it receives has received exactly these requests with these timeouts; an
option for one timeout leaves the other unchanged. -/
theorem timeouts_default_and_last_option {C H W K R O : Type} (env : Env C H W K)
    (sys : Sys H W) (cfg : C) (k : String) (algo : SigningAlgorithmSpec)
    (l : List OptionCall) :
    (defaultGetPublicKeyTimeout = 10 * 1000000000 ∧ defaultSignTimeout = 10 * 1000000000) ∧
    (NewSigner env sys cfg k algo (l.map OptionCall.toOption)).sys.world =
      (env.GetPublicKey (env.NewFromConfig cfg) sys.world
        ((lastGetPublicKeyTimeout l).getD 10000000000) { KeyId := k }).2 ∧
    ((NewSigner env sys cfg k algo (l.map OptionCall.toOption)).signer ≠ none ↔
      ∃ b pk, (env.GetPublicKey (env.NewFromConfig cfg) sys.world
          ((lastGetPublicKeyTimeout l).getD 10000000000) { KeyId := k }).1 =
          Except.ok { PublicKey := b } ∧
        env.ParsePKIXPublicKey b = Except.ok pk) ∧
    (∀ received : List (Call H),
      (NewSigner env.recording { world := (sys.world, received), calls := sys.calls } cfg k
          algo (l.map OptionCall.toOption)).sys.world.2 =
        received ++ [Call.GetPublicKey (env.NewFromConfig cfg)
          ((lastGetPublicKeyTimeout l).getD 10000000000) { KeyId := k }]) ∧
    (∀ s, (NewSigner env sys cfg k algo (l.map OptionCall.toOption)).signer = some s →
      s.getPublicKeyTimeout = (lastGetPublicKeyTimeout l).getD 10000000000 ∧
      s.signTimeout = (lastSignTimeout l).getD 10000000000 ∧
      ∀ (sys' : Sys H W) (rand : R) (digest : List UInt8) (opts : O)
        (received : List (Call H)),
        (s.Sign env sys' rand digest opts).sys.world =
          (env.Sign (env.NewFromConfig cfg) sys'.world
            ((lastSignTimeout l).getD 10000000000)
            { KeyId := k, Message := digest, MessageType := MessageType.DIGEST,
              SigningAlgorithm := algo }).2 ∧
        (s.Sign env.recording { world := (sys'.world, received), calls := sys'.calls }
            rand digest opts).sys.world.2 =
          received ++ [Call.Sign (env.NewFromConfig cfg)
            ((lastSignTimeout l).getD 10000000000)
            { KeyId := k, Message := digest, MessageType := MessageType.DIGEST,
              SigningAlgorithm := algo }]) ∧
    (∀ (t : Duration) (s : Signer H K),
      (WithGetPublicKeyTimeout t s).signTimeout = s.signTimeout ∧
      (WithSignTimeout t s).getPublicKeyTimeout = s.getPublicKeyTimeout) := by
  have hd : defaultGetPublicKeyTimeout = 10000000000 := by decide
  have hd' : defaultSignTimeout = 10000000000 := by decide
  refine ⟨⟨by decide, by decide⟩, ?_, ?_, ?_, ?_, fun t s => ⟨rfl, rfl⟩⟩
  · simp only [NewSigner, Signer.retrieveAndCachePublicKey, foldl_options, hd]
    split <;> rename_i h <;> split at h <;> try split at h
    all_goals rfl
  · rw [NewSigner_signer_iff, remote_options, hd]
  · intro received
    simp only [NewSigner, Signer.retrieveAndCachePublicKey, foldl_options, hd, Env.recording]
    split <;> rename_i h <;> split at h <;> try split at h
    all_goals rfl
  · intro s hs
    obtain ⟨pk, rfl⟩ := NewSigner_signer_eq env sys cfg k algo _ s hs
    rw [configured_options, hd, hd']
    refine ⟨rfl, rfl, ?_⟩
    intro sys' rand digest opts received
    constructor
    · simp only [Signer.Sign, MessageTypeDigest]
      split <;> rfl
    · simp only [Signer.Sign, MessageTypeDigest, Env.recording]
      split <;> rfl

theorem timeouts_default_and_last_option_witness :
    (NewSigner sampleEnv sampleSys () "k1" "ECDSA_SHA_256"
        ([OptionCall.WithSignTimeout 3, OptionCall.WithGetPublicKeyTimeout 5,
          OptionCall.WithSignTimeout 7].map OptionCall.toOption)).signer =
        some sampleSigner ∧
      sampleSigner.getPublicKeyTimeout =
        (lastGetPublicKeyTimeout [OptionCall.WithSignTimeout 3,
          OptionCall.WithGetPublicKeyTimeout 5, OptionCall.WithSignTimeout 7]).getD
          10000000000 ∧
      sampleSigner.signTimeout =
        (lastSignTimeout [OptionCall.WithSignTimeout 3, OptionCall.WithGetPublicKeyTimeout 5,
          OptionCall.WithSignTimeout 7]).getD 10000000000 ∧
      (sampleSigner.Sign sampleEnv sampleSys () [7] ()).sys.world =
        (sampleEnv.Sign (sampleEnv.NewFromConfig ()) sampleSys.world
          ((lastSignTimeout [OptionCall.WithSignTimeout 3,
            OptionCall.WithGetPublicKeyTimeout 5, OptionCall.WithSignTimeout 7]).getD
            10000000000)
          { KeyId := "k1", Message := [7], MessageType := MessageType.DIGEST,
            SigningAlgorithm := "ECDSA_SHA_256" }).2 :=
  have h := (timeouts_default_and_last_option sampleEnv sampleSys () "k1" "ECDSA_SHA_256"
    [OptionCall.WithSignTimeout 3, OptionCall.WithGetPublicKeyTimeout 5,
      OptionCall.WithSignTimeout 7]).2.2.2.2.1 sampleSigner rfl
  ⟨rfl, h.1, h.2.1, (h.2.2 sampleSys () [7] () []).1⟩

/-- C9, refuted as stated: two option lists that are permutations of each other give
signers with different sign timeouts. -/
theorem options_order_matters :
    List.Perm
      ([WithSignTimeout 1, WithSignTimeout 2] : List (SignerOption Unit (List UInt8)))
      [WithSignTimeout 2, WithSignTimeout 1] ∧
    (NewSigner sampleEnv sampleSys () "k1" "ECDSA_SHA_256"
      [WithSignTimeout 1, WithSignTimeout 2]).signer =
      some { kmsClient := (), kmsKeyId := "k1", signingAlgo := "ECDSA_SHA_256",
             getPublicKeyTimeout := 10000000000, signTimeout := 2,
             publicKey := some [0x59, 0x01] } ∧
    (NewSigner sampleEnv sampleSys () "k1" "ECDSA_SHA_256"
      [WithSignTimeout 2, WithSignTimeout 1]).signer =
      some { kmsClient := (), kmsKeyId := "k1", signingAlgo := "ECDSA_SHA_256",
             getPublicKeyTimeout := 10000000000, signTimeout := 1,
             publicKey := some [0x59, 0x01] } ∧
    (2 : Duration) ≠ 1 :=
  ⟨List.Perm.swap _ _ _, rfl, rfl, by decide⟩

/-- C9, amended: when no two options of the list set the same timeout to different values,
every permutation of the list gives the same retrieval timeout and the same sign timeout,
and `NewSigner` behaves the same on both lists. -/
theorem options_order_insensitive_when_agreeing {C H W K : Type} (env : Env C H W K)
    (sys : Sys H W) (cfg : C) (k : String) (algo : SigningAlgorithmSpec)
    (l₁ l₂ : List OptionCall) (hperm : l₁.Perm l₂) (hagree : AgreeingOptions l₁) :
    (NewSigner.configured env cfg k algo (l₁.map OptionCall.toOption)).getPublicKeyTimeout =
      (NewSigner.configured env cfg k algo (l₂.map OptionCall.toOption)).getPublicKeyTimeout ∧
    (NewSigner.configured env cfg k algo (l₁.map OptionCall.toOption)).signTimeout =
      (NewSigner.configured env cfg k algo (l₂.map OptionCall.toOption)).signTimeout ∧
    NewSigner env sys cfg k algo (l₁.map OptionCall.toOption) =
      NewSigner env sys cfg k algo (l₂.map OptionCall.toOption) := by
  have hg : lastGetPublicKeyTimeout l₁ = lastGetPublicKeyTimeout l₂ := by
    cases h₁ : lastGetPublicKeyTimeout l₁ with
    | none =>
      cases h₂ : lastGetPublicKeyTimeout l₂ with
      | none => rfl
      | some b =>
        exact absurd (hperm.mem_iff.2 (lastGetPublicKeyTimeout_mem h₂))
          (lastGetPublicKeyTimeout_none h₁ b)
    | some a =>
      cases h₂ : lastGetPublicKeyTimeout l₂ with
      | none =>
        exact absurd (hperm.mem_iff.1 (lastGetPublicKeyTimeout_mem h₁))
          (lastGetPublicKeyTimeout_none h₂ a)
      | some b =>
        rw [hagree.1 a b (lastGetPublicKeyTimeout_mem h₁)
          (hperm.mem_iff.2 (lastGetPublicKeyTimeout_mem h₂))]
  have hs : lastSignTimeout l₁ = lastSignTimeout l₂ := by
    cases h₁ : lastSignTimeout l₁ with
    | none =>
      cases h₂ : lastSignTimeout l₂ with
      | none => rfl
      | some b =>
        exact absurd (hperm.mem_iff.2 (lastSignTimeout_mem h₂)) (lastSignTimeout_none h₁ b)
    | some a =>
      cases h₂ : lastSignTimeout l₂ with
      | none =>
        exact absurd (hperm.mem_iff.1 (lastSignTimeout_mem h₁)) (lastSignTimeout_none h₂ a)
      | some b =>
        rw [hagree.2 a b (lastSignTimeout_mem h₁) (hperm.mem_iff.2 (lastSignTimeout_mem h₂))]
  have hc : NewSigner.configured env cfg k algo (l₁.map OptionCall.toOption) =
      NewSigner.configured env cfg k algo (l₂.map OptionCall.toOption) := by
    rw [configured_options, configured_options, hg, hs]
  refine ⟨by rw [hc], by rw [hc], ?_⟩
  have hn : ∀ opts : List (SignerOption H K), NewSigner env sys cfg k algo opts =
      match ((NewSigner.configured env cfg k algo opts).retrieveAndCachePublicKey env sys).err
      with
      | some err =>
        { signer := none, err := some ("failed to retrieve public key for signer: " ++ err),
          sys := ((NewSigner.configured env cfg k algo opts).retrieveAndCachePublicKey
            env sys).sys }
      | none =>
        { signer := some ((NewSigner.configured env cfg k algo opts).retrieveAndCachePublicKey
            env sys).signer,
          err := none,
          sys := ((NewSigner.configured env cfg k algo opts).retrieveAndCachePublicKey
            env sys).sys } := fun _ => rfl
  rw [hn, hn, hc]

theorem options_order_insensitive_when_agreeing_witness :
    List.Perm [OptionCall.WithSignTimeout 3, OptionCall.WithGetPublicKeyTimeout 5,
        OptionCall.WithSignTimeout 3]
      [OptionCall.WithGetPublicKeyTimeout 5, OptionCall.WithSignTimeout 3,
        OptionCall.WithSignTimeout 3] ∧
    AgreeingOptions [OptionCall.WithSignTimeout 3, OptionCall.WithGetPublicKeyTimeout 5,
        OptionCall.WithSignTimeout 3] ∧
    (NewSigner.configured sampleEnv () "k1" "ECDSA_SHA_256"
        ([OptionCall.WithSignTimeout 3, OptionCall.WithGetPublicKeyTimeout 5,
          OptionCall.WithSignTimeout 3].map OptionCall.toOption)).signTimeout =
      (NewSigner.configured sampleEnv () "k1" "ECDSA_SHA_256"
        ([OptionCall.WithGetPublicKeyTimeout 5, OptionCall.WithSignTimeout 3,
          OptionCall.WithSignTimeout 3].map OptionCall.toOption)).signTimeout :=
  have hperm : List.Perm [OptionCall.WithSignTimeout 3, OptionCall.WithGetPublicKeyTimeout 5,
        OptionCall.WithSignTimeout 3]
      [OptionCall.WithGetPublicKeyTimeout 5, OptionCall.WithSignTimeout 3,
        OptionCall.WithSignTimeout 3] := List.Perm.swap _ _ _
  have hagree : AgreeingOptions [OptionCall.WithSignTimeout 3,
      OptionCall.WithGetPublicKeyTimeout 5, OptionCall.WithSignTimeout 3] := by
    constructor
    · intro a b ha hb
      simp at ha hb
      exact ha.trans hb.symm
    · intro a b ha hb
      simp at ha hb
      exact ha.trans hb.symm
  ⟨hperm, hagree, (options_order_insensitive_when_agreeing sampleEnv sampleSys ()
    "k1" "ECDSA_SHA_256" _ _ hperm hagree).2.1⟩

/-- C10: `Signer.Public` and `Signer.Sign` leave every field of the signer unchanged; after
any sequence of `Public` and `Sign` calls on a constructed signer, whatever the service
answers, the signer is the one `NewSigner` returned and `Public` returns the key it returned
right after construction, which is not nil. -/
theorem public_key_write_once {C H W K R O : Type} (env : Env C H W K) (sys : Sys H W)
    (cfg : C) (k : String) (algo : SigningAlgorithmSpec) (opts : List (SignerOption H K))
    (s : Signer H K) (h : (NewSigner env sys cfg k algo opts).signer = some s)
    (ops : List (Op R O)) (sys' : Sys H W) :
    (∀ t : Signer H K, t.Public.2 = t) ∧
    (∀ (t : Signer H K) (sys₂ : Sys H W) (rand : R) (digest : List UInt8) (o : O),
      (t.Sign env sys₂ rand digest o).signer = t) ∧
    (runOps env s sys' ops).1 = s ∧
    (runOps env s sys' ops).1.Public.1 = s.Public.1 ∧
    ∃ pk, (runOps env s sys' ops).1.Public.1 = some pk := by
  refine ⟨fun _ => rfl, ?_, runOps_signer env ops s sys', ?_, ?_⟩
  · intro t sys₂ rand digest o
    simp only [Signer.Sign]
    split <;> rfl
  · rw [runOps_signer]
  · rw [runOps_signer]
    obtain ⟨pk, rfl⟩ := NewSigner_signer_eq env sys cfg k algo opts s h
    exact ⟨pk, rfl⟩

theorem public_key_write_once_witness :
    (NewSigner sampleEnv sampleSys () "k1" "ECDSA_SHA_256"
        [WithGetPublicKeyTimeout 5, WithSignTimeout 7]).signer = some sampleSigner ∧
    (runOps sampleEnv sampleSigner sampleSys
        [Op.Sign () [1] (), Op.Public, Op.Sign () [] ()]).1 = sampleSigner ∧
    (runOps sampleEnv sampleSigner sampleSys
        [Op.Sign () [1] (), Op.Public, Op.Sign () [] ()]).1.Public.1 =
      sampleSigner.Public.1 :=
  ⟨rfl, (public_key_write_once sampleEnv sampleSys () "k1" "ECDSA_SHA_256"
      [WithGetPublicKeyTimeout 5, WithSignTimeout 7] sampleSigner rfl
      [Op.Sign () [1] (), Op.Public, Op.Sign () [] ()] sampleSys).2.2.1,
    (public_key_write_once sampleEnv sampleSys () "k1" "ECDSA_SHA_256"
      [WithGetPublicKeyTimeout 5, WithSignTimeout 7] sampleSigner rfl
      [Op.Sign () [1] (), Op.Public, Op.Sign () [] ()] sampleSys).2.2.2.1⟩

end kmssigner
